import Mathlib

/-!
Shallow embedding of the credit-card number engine from `src/api/models.py`
(class `CreditCard` with its class methods `from_number`, `with_invalid_number`
and `generate_from_iin`) together with the Luhn checksum primitives.

Python strings are modelled as `List Char`; Python slicing is translated to
`List.take` and `List.drop`.  Raising an exception is modelled by returning
`Except.error` with the corresponding error kind from `src/api/exceptions.py`.
The random middle digits drawn by `randint(0, 9)` inside `generate_from_iin`
are modelled by a stream `draws : Nat -> Nat`; theorems quantify over all
streams whose values are decimal digits.
-/

/-- The two recoverable error kinds of `src/api/exceptions.py`:
`InvalidCardNumberError` and `InvalidIinError`. -/
inductive ApiError where
  | invalidCardNumber
  | invalidIin
deriving DecidableEq, Repr

/-- Modelled from the spec: `CARD_LENGTH` is imported from `api/constants.py`,
a file of this repository that is not present under `src/`; the spec fixes the
configured total length `L` to its default of 16. -/
def CARD_LENGTH : Nat := 16

/-- Value of a decimal digit character, as Python `int(c)` on a single digit. -/
def digitVal (c : Char) : Nat := c.toNat - 48

/-- The single-character string Python produces for a digit value `d` in
`0..9`, as in `str(randint(0, 9))` and `baluhn.generate`. -/
def digitChar (d : Nat) : Char := Char.ofNat (48 + d)

/-- Python `str.isdigit` restricted to ASCII: true iff the string is
non-empty and every character is a decimal digit. -/
def isdigit (s : List Char) : Bool := !s.isEmpty && s.all Char.isDigit

/-- Luhn weighted sum over a digit-value list that is already reversed
(head of the list = rightmost digit of the number).  The flag says whether
the next digit is doubled; doubling a digit `d` contributes the sum of the
decimal digits of `2 * d`, i.e. `2 * d / 10 + 2 * d % 10`. -/
def luhnAux : Bool → List Nat → Nat
  | _, [] => 0
  | false, d :: rest => d + luhnAux true rest
  | true, d :: rest => (2 * d / 10 + 2 * d % 10) + luhnAux false rest

/-- Luhn weighted sum of a digit string: starting from the rightmost digit
(not doubled) and moving left, every second digit is doubled. -/
def luhn_sum (s : List Char) : Nat := luhnAux false ((s.map digitVal).reverse)

/-- Modelled from the spec: `baluhn.verify`, the Luhn verification primitive
imported by `src/api/models.py` from the external `baluhn` package (not under
`src/`).  Per spec section 4.1 it returns true iff the string is non-empty,
all characters are decimal digits, and the Luhn weighted sum of the full
sequence is divisible by 10. -/
def verify (s : List Char) : Bool :=
  !s.isEmpty && s.all Char.isDigit && (luhn_sum s % 10 == 0)

/-- Modelled from the spec: `baluhn.generate`, the check-digit computation
imported by `src/api/models.py` from the external `baluhn` package (not under
`src/`).  Per spec section 4.1 it applies the weighted-sum algorithm to
`s + "0"` and returns the digit `(10 - (sum mod 10)) mod 10`. -/
def generate (s : List Char) : Char :=
  digitChar ((10 - luhn_sum (s ++ ['0']) % 10) % 10)

/-- The `CreditCard` record of `src/api/models.py`.  The four structural
fields default to `None` in the Django model, so they are `Option`-valued
here; `is_valid` defaults to false. -/
structure CreditCard where
  number : List Char
  major_industry_identifier : Option (List Char) := none
  issuer_identification_number : Option (List Char) := none
  personal_account_number : Option (List Char) := none
  check_digit : Option (List Char) := none
  is_valid : Bool := false
deriving DecidableEq, Repr

/-- The declared `max_length` of the `personal_account_number` field in
`src/api/models.py` line 20 (`models.CharField(max_length=4, ...)`).  Django
does not enforce it at construction time, so it does not appear in
`from_number`. -/
def personal_account_number_max_length : Nat := 4

/-- `CreditCard.from_number` of `src/api/models.py`: rejects with
`InvalidCardNumberError` when the string is not all digits or fails
`baluhn.verify`; otherwise decomposes by position: MII = `number[0]`,
IIN = `number[:6]`, PAN = `number[6:-1]`, check digit = `number[-1]`. -/
def from_number (number : List Char) : Except ApiError CreditCard :=
  if !isdigit number || !verify number then
    .error .invalidCardNumber
  else
    .ok { number := number
          major_industry_identifier := some (number.take 1)
          issuer_identification_number := some (number.take 6)
          personal_account_number := some ((number.drop 6).dropLast)
          check_digit := some (number.drop (number.length - 1))
          is_valid := true }

/-- `CreditCard.with_invalid_number` of `src/api/models.py`: keeps only the
raw input string, leaving every other attribute at its default. -/
def with_invalid_number (number : List Char) : CreditCard :=
  { number := number }

/-- `CreditCard.generate_from_iin` of `src/api/models.py`: rejects with
`InvalidIinError` unless the IIN has length 1 or 2 and is all digits;
otherwise draws `CARD_LENGTH - len(iin) - 1` random decimal digits, appends
the generated check digit, and pipes the result through `from_number`. -/
def generate_from_iin (iin : List Char) (draws : Nat → Nat) :
    Except ApiError CreditCard :=
  if !(decide (0 < iin.length ∧ iin.length < 3)) || !isdigit iin then
    .error .invalidIin
  else
    let middle_digits_len := CARD_LENGTH - iin.length - 1
    let middle_digits := (List.range middle_digits_len).map (fun i => digitChar (draws i))
    let digits_without_check_digit := iin ++ middle_digits
    let cd := generate digits_without_check_digit
    from_number (digits_without_check_digit ++ [cd])

deriving instance DecidableEq for Except

/-! ### Helper lemmas about the Luhn primitives -/

lemma digitChar_isDigit {d : Nat} (h : d < 10) : (digitChar d).isDigit = true := by
  interval_cases d <;> decide

lemma digitVal_digitChar {d : Nat} (h : d < 10) : digitVal (digitChar d) = d := by
  interval_cases d <;> decide

lemma luhn_sum_concat (p : List Char) (c : Char) :
    luhn_sum (p ++ [c]) = digitVal c + luhnAux true ((p.map digitVal).reverse) := by
  simp [luhn_sum, luhnAux]

lemma generate_val (p : List Char) :
    generate p = digitChar ((10 - luhnAux true ((p.map digitVal).reverse) % 10) % 10) := by
  have h0 : digitVal '0' = 0 := by decide
  rw [generate, luhn_sum_concat, h0, Nat.zero_add]

lemma generate_isDigit (p : List Char) : (generate p).isDigit = true := by
  rw [generate_val]
  exact digitChar_isDigit (Nat.mod_lt _ (by omega))

/-- Core checksum-construction correctness: appending the generated check
digit to a non-empty all-digit string yields a string that passes `verify`. -/
lemma verify_concat_generate (p : List Char) (hne : p ≠ [])
    (hd : p.all Char.isDigit = true) : verify (p ++ [generate p]) = true := by
  have hlt : (10 - luhnAux true ((p.map digitVal).reverse) % 10) % 10 < 10 :=
    Nat.mod_lt _ (by omega)
  have hsum : luhn_sum (p ++ [generate p]) % 10 = 0 := by
    rw [luhn_sum_concat, generate_val, digitVal_digitChar hlt]
    omega
  simp [verify, hsum, hne, List.all_append, hd, generate_isDigit]

/-! ### Helper lemmas about `from_number` -/

lemma from_number_ok (n : List Char) (h1 : isdigit n = true) (h2 : verify n = true) :
    from_number n =
      .ok { number := n
            major_industry_identifier := some (n.take 1)
            issuer_identification_number := some (n.take 6)
            personal_account_number := some ((n.drop 6).dropLast)
            check_digit := some (n.drop (n.length - 1))
            is_valid := true } := by
  simp [from_number, h1, h2]

lemma from_number_ok_inv {n : List Char} {c : CreditCard}
    (h : from_number n = .ok c) :
    isdigit n = true ∧ verify n = true ∧
      c = { number := n
            major_industry_identifier := some (n.take 1)
            issuer_identification_number := some (n.take 6)
            personal_account_number := some ((n.drop 6).dropLast)
            check_digit := some (n.drop (n.length - 1))
            is_valid := true } := by
  unfold from_number at h
  split at h
  · exact absurd h (by simp)
  · rename_i hcond
    simp only [Bool.or_eq_true, Bool.not_eq_true'] at hcond
    push_neg at hcond
    refine ⟨?_, ?_, ?_⟩
    · simpa using hcond.1
    · simpa using hcond.2
    · exact (Except.ok.injEq _ _).mp h.symm

lemma from_number_ne_invalidIin (n : List Char) :
    from_number n ≠ .error .invalidIin := by
  unfold from_number
  split <;> simp

lemma verify_of_isEmpty {n : List Char} (h : n.isEmpty = true) :
    verify n = false := by
  simp [verify, h]

/-! ### Helper lemmas about `generate_from_iin` -/

/-- The middle digits drawn inside `generate_from_iin` for a given stream. -/
def gen_middle (iin : List Char) (draws : Nat → Nat) : List Char :=
  (List.range (CARD_LENGTH - iin.length - 1)).map (fun i => digitChar (draws i))

/-- The digits of the body (IIN plus middle digits) built by `generate_from_iin`. -/
def gen_body (iin : List Char) (draws : Nat → Nat) : List Char :=
  iin ++ gen_middle iin draws

/-- The full candidate number built by `generate_from_iin`. -/
def gen_number (iin : List Char) (draws : Nat → Nat) : List Char :=
  gen_body iin draws ++ [generate (gen_body iin draws)]

lemma isEmpty_false_of_length_pos {l : List Char} (h : 0 < l.length) :
    l.isEmpty = false := by
  cases l with
  | nil => simp at h
  | cons a t => rfl

lemma generate_from_iin_eq (iin : List Char) (draws : Nat → Nat)
    (h1 : 0 < iin.length) (h2 : iin.length < 3) (h3 : iin.all Char.isDigit = true) :
    generate_from_iin iin draws = from_number (gen_number iin draws) := by
  have hguard : (!(decide (0 < iin.length ∧ iin.length < 3)) || !isdigit iin) = false := by
    simp [isdigit, isEmpty_false_of_length_pos h1, h3, h1, h2]
  unfold generate_from_iin
  rw [if_neg (by intro hcond; rw [hguard] at hcond; exact absurd hcond (by decide))]
  rfl

lemma gen_middle_all (iin : List Char) (draws : Nat → Nat)
    (hdr : ∀ i, draws i < 10) : (gen_middle iin draws).all Char.isDigit = true := by
  rw [gen_middle, List.all_eq_true]
  intro c hc
  rw [List.mem_map] at hc
  obtain ⟨i, hi, rfl⟩ := hc
  exact digitChar_isDigit (hdr i)

lemma gen_body_ne_nil (iin : List Char) (draws : Nat → Nat) (h1 : 0 < iin.length) :
    gen_body iin draws ≠ [] := by
  have : 0 < (gen_body iin draws).length := by
    rw [gen_body, List.length_append]
    omega
  exact List.ne_nil_of_length_pos this

lemma gen_body_all (iin : List Char) (draws : Nat → Nat)
    (h3 : iin.all Char.isDigit = true) (hdr : ∀ i, draws i < 10) :
    (gen_body iin draws).all Char.isDigit = true := by
  rw [gen_body, List.all_append, h3, gen_middle_all iin draws hdr]
  rfl

lemma gen_number_isdigit (iin : List Char) (draws : Nat → Nat)
    (h3 : iin.all Char.isDigit = true)
    (hdr : ∀ i, draws i < 10) : isdigit (gen_number iin draws) = true := by
  have hne : (gen_number iin draws).isEmpty = false := by
    apply isEmpty_false_of_length_pos
    rw [gen_number, List.length_append]
    simp
  have hall : (gen_number iin draws).all Char.isDigit = true := by
    rw [gen_number, List.all_append, gen_body_all iin draws h3 hdr]
    simp [generate_isDigit]
  simp [isdigit, hne, hall]

lemma gen_number_verify (iin : List Char) (draws : Nat → Nat)
    (h1 : 0 < iin.length) (h3 : iin.all Char.isDigit = true)
    (hdr : ∀ i, draws i < 10) : verify (gen_number iin draws) = true :=
  verify_concat_generate _ (gen_body_ne_nil iin draws h1) (gen_body_all iin draws h3 hdr)

lemma gen_number_length (iin : List Char) (draws : Nat → Nat)
    (h2 : iin.length < 3) : (gen_number iin draws).length = CARD_LENGTH := by
  rw [gen_number, gen_body, List.length_append, List.length_append, gen_middle]
  simp only [List.length_map, List.length_range, List.length_cons, List.length_nil]
  unfold CARD_LENGTH
  omega

lemma gen_number_take (iin : List Char) (draws : Nat → Nat) :
    (gen_number iin draws).take iin.length = iin := by
  rw [gen_number, gen_body]
  rw [List.take_append_of_le_length (by simp)]
  rw [List.take_append_of_le_length (Nat.le_refl _), List.take_length]

/-! ### List decomposition lemmas -/

lemma dropLast_drop_six (n : List Char) (h : n.length = 16) :
    (n.drop 6).dropLast = (n.drop 6).take 9 := by
  rw [List.dropLast_eq_take, List.length_drop, h]

lemma decompose_concat (n : List Char) (h : n.length = 16) :
    n.take 1 ++ (n.take 6).drop 1 ++ (n.drop 6).dropLast ++ n.drop (n.length - 1) = n := by
  have h1 : (n.take 6).drop 1 = (n.drop 1).take 5 := by
    rw [List.drop_take]
  have h2 : (n.drop 6).dropLast = (n.drop 6).take 9 := dropLast_drop_six n h
  have h3 : n.drop (n.length - 1) = n.drop 15 := by rw [h]
  have e1 : n.take 1 ++ (n.drop 1).take 5 = n.take 6 := (List.take_add n 1 5).symm
  have e2 : n.take 6 ++ (n.drop 6).take 9 = n.take 15 := (List.take_add n 6 9).symm
  rw [h1, h2, h3, e1, e2]
  exact List.take_append_drop 15 n

lemma drop_length_sub_one (s : List Char) (h : s ≠ []) :
    s.drop (s.length - 1) = [s.getLastD '0'] := by
  rcases List.eq_nil_or_concat s with rfl | ⟨l, b, rfl⟩
  · exact absurd rfl h
  · rw [List.concat_eq_append, List.length_append]
    have e : l.length + ([b] : List Char).length - 1 = l.length := by simp
    rw [e, List.drop_left, List.getLastD_concat]

/-! ### Guard characterisation for `from_number` -/

lemma from_number_error_guard (n : List Char) :
    from_number n = .error .invalidCardNumber ↔ (!isdigit n || !verify n) = true := by
  unfold from_number
  split
  · rename_i hc
    simp [hc]
  · rename_i hc
    simp [hc]

lemma guard_iff (n : List Char) :
    (!isdigit n || !verify n) = true ↔
      (¬ n.all Char.isDigit = true ∨ verify n = false) := by
  by_cases hE : n.isEmpty = true
  · simp [isdigit, hE, verify_of_isEmpty hE]
  · have hE' : n.isEmpty = false := by
      cases hb : n.isEmpty
      · rfl
      · exact absurd hb hE
    simp [isdigit, hE']

/-! ### Claim theorems -/

/-- Claim C1: for every non-empty string p of decimal digits, appending the
check digit computed for p yields a string that passes Luhn verification,
and consequently the internal `from_number` call of `generate_from_iin`
always succeeds for every sequence of digit draws. -/
theorem checksum_construction_correct (p iin : List Char) (draws : Nat → Nat)
    (hp : p ≠ []) (hpd : p.all Char.isDigit = true)
    (h1 : 0 < iin.length) (h2 : iin.length < 3) (h3 : iin.all Char.isDigit = true)
    (hdr : ∀ i, draws i < 10) :
    verify (p ++ [generate p]) = true ∧
      ∃ c, generate_from_iin iin draws = .ok c := by
  refine ⟨verify_concat_generate p hp hpd, ?_⟩
  rw [generate_from_iin_eq iin draws h1 h2 h3]
  exact ⟨_, from_number_ok _ (gen_number_isdigit iin draws h3 hdr)
    (gen_number_verify iin draws h1 h3 hdr)⟩

theorem checksum_construction_correct_witness :
    verify (['1'] ++ [generate ['1']]) = true ∧
      ∃ c, generate_from_iin ['4', '5'] (fun _ => 0) = .ok c :=
  checksum_construction_correct ['1'] (['4', '5']) (fun _ => 0) (by decide) (by decide)
    (by decide) (by decide) (by decide) (fun i => by show (0 : Nat) < 10; decide)

/-- Claim C2: `from_number` fails with `InvalidCardNumber` iff the input is
not composed entirely of decimal digits or fails Luhn verification; in
particular any non-empty all-digit string whose Luhn weighted sum is
divisible by 10 is accepted, regardless of its length. -/
theorem from_number_error_iff (number : List Char) :
    (from_number number = .error .invalidCardNumber ↔
      ¬ number.all Char.isDigit = true ∨ verify number = false) ∧
    (number ≠ [] → number.all Char.isDigit = true → luhn_sum number % 10 = 0 →
      ∃ c, from_number number = .ok c) := by
  refine ⟨(from_number_error_guard number).trans (guard_iff number), ?_⟩
  intro hne hall hsum
  have hE : number.isEmpty = false :=
    isEmpty_false_of_length_pos (List.length_pos.mpr hne)
  have hd : isdigit number = true := by simp [isdigit, hE, hall]
  have hv : verify number = true := by simp [verify, hE, hall, hsum]
  exact ⟨_, from_number_ok number hd hv⟩

theorem from_number_error_iff_witness : ∃ c, from_number ['0'] = .ok c :=
  (from_number_error_iff ['0']).2 (by decide) (by decide) (by decide)

/-- Claim C3: `from_number "4503495455532271"` succeeds and returns a record
with MII "4", IIN "450349", PAN "545553227", check digit "1", and
is_valid true. -/
theorem from_number_scenario :
    from_number "4503495455532271".toList =
      .ok { number := "4503495455532271".toList
            major_industry_identifier := some "4".toList
            issuer_identification_number := some "450349".toList
            personal_account_number := some "545553227".toList
            check_digit := some "1".toList
            is_valid := true } := by decide

/-- The record produced by `from_number` on "4503495455532271". -/
def card16 : CreditCard :=
  { number := "4503495455532271".toList
    major_industry_identifier := some "4".toList
    issuer_identification_number := some "450349".toList
    personal_account_number := some "545553227".toList
    check_digit := some "1".toList
    is_valid := true }

/-- Claim C4 (counterexample): `from_number "0"` succeeds and yields a record
with is_valid true whose digits have length 1, not CARD_LENGTH = 16, and whose
field concatenation MII ++ IIN[1:] ++ PAN ++ check digit is "00", not the
digits "0"; so the stated invariant fails for a record with is_valid true. -/
theorem valid_record_invariant_counterexample :
    from_number ['0'] =
      .ok { number := ['0']
            major_industry_identifier := some ['0']
            issuer_identification_number := some ['0']
            personal_account_number := some []
            check_digit := some ['0']
            is_valid := true } ∧
    (['0'] : List Char).length ≠ CARD_LENGTH ∧
    ['0'] ++ (['0'] : List Char).drop 1 ++ ([] : List Char) ++ ['0'] ≠ ['0'] := by
  decide

/-- Claim C4 (amended): for every record produced by a successful
`from_number` call on an input of the configured length CARD_LENGTH — which
includes every record produced by `generate_from_iin`, whose candidate always
has that length — is_valid is true, the digits have length CARD_LENGTH, and
MII ++ IIN[1:] ++ PAN ++ check digit equals the digits. -/
theorem valid_record_invariant (number : List Char) (c : CreditCard)
    (h : from_number number = .ok c) (hlen : number.length = CARD_LENGTH) :
    c.is_valid = true ∧ c.number.length = CARD_LENGTH ∧
      c.major_industry_identifier.getD [] ++
        (c.issuer_identification_number.getD []).drop 1 ++
        c.personal_account_number.getD [] ++ c.check_digit.getD [] = c.number := by
  obtain ⟨hd, hv, rfl⟩ := from_number_ok_inv h
  refine ⟨rfl, hlen, ?_⟩
  simp only [Option.getD_some]
  exact decompose_concat number hlen

theorem valid_record_invariant_witness :
    card16.is_valid = true ∧ card16.number.length = CARD_LENGTH ∧
      card16.major_industry_identifier.getD [] ++
        (card16.issuer_identification_number.getD []).drop 1 ++
        card16.personal_account_number.getD [] ++ card16.check_digit.getD [] =
        card16.number :=
  valid_record_invariant "4503495455532271".toList card16 (by decide) (by decide)

/-- Claim C5: for every sequence of digit draws, `generate_from_iin "45"`
returns a record whose digits start with "45", have length exactly
CARD_LENGTH = 16, and pass Luhn verification. -/
theorem generate_scenario (draws : Nat → Nat) (hdr : ∀ i, draws i < 10) :
    ∃ c, generate_from_iin (['4', '5']) draws = .ok c ∧
      c.number.take 2 = ['4', '5'] ∧ c.number.length = CARD_LENGTH ∧
      verify c.number = true := by
  have h1 : 0 < (['4', '5'] : List Char).length := by decide
  have h2 : (['4', '5'] : List Char).length < 3 := by decide
  have h3 : (['4', '5'] : List Char).all Char.isDigit = true := by decide
  rw [generate_from_iin_eq _ draws h1 h2 h3]
  refine ⟨_, from_number_ok _ (gen_number_isdigit _ draws h3 hdr)
    (gen_number_verify _ draws h1 h3 hdr), ?_, ?_, ?_⟩
  · exact gen_number_take (['4', '5']) draws
  · exact gen_number_length _ draws h2
  · exact gen_number_verify _ draws h1 h3 hdr

theorem generate_scenario_witness :
    ∃ c, generate_from_iin (['4', '5']) (fun _ => 0) = .ok c ∧
      c.number.take 2 = ['4', '5'] ∧ c.number.length = CARD_LENGTH ∧
      verify c.number = true :=
  generate_scenario (fun _ => 0) (fun i => by show (0 : Nat) < 10; decide)

/-- Claim C6: `generate_from_iin` fails with `InvalidIinError` iff the IIN
length is not between 1 and 2 inclusive or the IIN contains a non-digit
character; in particular the empty string, "123" and "a" all fail so. -/
theorem generate_error_iff (iin : List Char) (draws : Nat → Nat) :
    (generate_from_iin iin draws = .error .invalidIin ↔
      ¬ (1 ≤ iin.length ∧ iin.length ≤ 2) ∨ ¬ iin.all Char.isDigit = true) ∧
    generate_from_iin [] draws = .error .invalidIin ∧
    generate_from_iin (['1', '2', '3']) draws = .error .invalidIin ∧
    generate_from_iin ['a'] draws = .error .invalidIin := by
  refine ⟨⟨?_, ?_⟩, rfl, rfl, rfl⟩
  · intro h
    by_contra hcon
    push_neg at hcon
    rw [generate_from_iin_eq iin draws (by omega) (by omega) hcon.2] at h
    exact from_number_ne_invalidIin _ h
  · intro h
    have hguard : (!(decide (0 < iin.length ∧ iin.length < 3)) || !isdigit iin) = true := by
      rcases h with h | h
      · have hnb : ¬(0 < iin.length ∧ iin.length < 3) := by omega
        simp [hnb]
      · have hall : iin.all Char.isDigit = false := by
          cases hb : iin.all Char.isDigit
          · rfl
          · exact absurd hb h
        simp [isdigit, hall]
    unfold generate_from_iin
    rw [if_pos hguard]

/-- Claim C7: round trip — any record produced by `generate_from_iin` is
reproduced, equal in every field, by calling `from_number` on its digits. -/
theorem generate_round_trip (iin : List Char) (draws : Nat → Nat) (c : CreditCard)
    (h : generate_from_iin iin draws = .ok c) :
    from_number c.number = .ok c := by
  unfold generate_from_iin at h
  split at h
  · exact absurd h (by simp)
  · obtain ⟨hd, hv, hc⟩ := from_number_ok_inv h
    subst hc
    exact from_number_ok _ hd hv

/-- The record produced by `generate_from_iin` on IIN "45" when every random
draw is 0. -/
def card45 : CreditCard :=
  { number := "4500000000000007".toList
    major_industry_identifier := some "4".toList
    issuer_identification_number := some "450000".toList
    personal_account_number := some "000000000".toList
    check_digit := some "7".toList
    is_valid := true }

theorem generate_round_trip_witness : from_number card45.number = .ok card45 :=
  generate_round_trip (['4', '5']) (fun _ => 0) card45 (by decide)

/-- Claim C8: `with_invalid_number` returns a record carrying the raw input
string, with is_valid false and all four structural fields absent; such a
placeholder is never the result of a successful `from_number` or
`generate_from_iin` call. -/
theorem with_invalid_number_spec (s : List Char) :
    (with_invalid_number s).number = s ∧
    (with_invalid_number s).is_valid = false ∧
    (with_invalid_number s).major_industry_identifier = none ∧
    (with_invalid_number s).issuer_identification_number = none ∧
    (with_invalid_number s).personal_account_number = none ∧
    (with_invalid_number s).check_digit = none ∧
    (∀ n c, from_number n = .ok c → c ≠ with_invalid_number s) ∧
    (∀ iin draws c, generate_from_iin iin draws = .ok c → c ≠ with_invalid_number s) := by
  refine ⟨rfl, rfl, rfl, rfl, rfl, rfl, ?_, ?_⟩
  · intro n c h hceq
    obtain ⟨-, -, rfl⟩ := from_number_ok_inv h
    have hval := congrArg CreditCard.is_valid hceq
    simp [with_invalid_number] at hval
  · intro iin draws c h hceq
    unfold generate_from_iin at h
    split at h
    · exact absurd h (by simp)
    · obtain ⟨-, -, rfl⟩ := from_number_ok_inv h
      have hval := congrArg CreditCard.is_valid hceq
      simp [with_invalid_number] at hval

/-- Claim C9: every all-digit string of length 1 to 6 whose Luhn sum is
divisible by 10 is accepted by `from_number`, with is_valid true, the IIN
field equal to the whole string, the PAN field empty, and the check-digit
field equal to the last character — the fields overlap instead of
partitioning the digits. -/
theorem from_number_short_input (s : List Char)
    (h1 : 1 ≤ s.length) (h6 : s.length ≤ 6)
    (hall : s.all Char.isDigit = true) (hsum : luhn_sum s % 10 = 0) :
    from_number s =
      .ok { number := s
            major_industry_identifier := some (s.take 1)
            issuer_identification_number := some s
            personal_account_number := some []
            check_digit := some [s.getLastD '0']
            is_valid := true } := by
  have hne : s ≠ [] := List.ne_nil_of_length_pos (by omega)
  have hE : s.isEmpty = false := isEmpty_false_of_length_pos (by omega)
  have hd : isdigit s = true := by simp [isdigit, hE, hall]
  have hv : verify s = true := by simp [verify, hE, hall, hsum]
  rw [from_number_ok s hd hv]
  have e6 : s.take 6 = s := List.take_of_length_le h6
  have ep : (s.drop 6).dropLast = ([] : List Char) := by
    rw [List.drop_eq_nil_of_le h6]
    rfl
  have ec : s.drop (s.length - 1) = [s.getLastD '0'] := drop_length_sub_one s hne
  rw [e6, ep, ec]

theorem from_number_short_input_witness :
    from_number ['0'] =
      .ok { number := ['0']
            major_industry_identifier := some ['0']
            issuer_identification_number := some ['0']
            personal_account_number := some []
            check_digit := some ['0']
            is_valid := true } :=
  from_number_short_input ['0'] (by decide) (by decide) (by decide) (by decide)

/-- Claim C10: for every 16-character all-digit string accepted by
`from_number`, the PAN field is exactly digits[6:15], a full 9-character
value with no truncation, although the field is declared with
max_length = 4. -/
theorem pan_full_nine_digits (s : List Char) (c : CreditCard)
    (hlen : s.length = 16) (h : from_number s = .ok c) :
    c.personal_account_number = some ((s.drop 6).take 9) ∧
      ((s.drop 6).take 9).length = 9 ∧
      personal_account_number_max_length < ((s.drop 6).take 9).length := by
  obtain ⟨-, -, rfl⟩ := from_number_ok_inv h
  have hp : (s.drop 6).dropLast = (s.drop 6).take 9 := dropLast_drop_six s hlen
  have hl : ((s.drop 6).take 9).length = 9 := by
    simp [List.length_take, List.length_drop, hlen]
  exact ⟨by simp [hp], hl, by rw [hl]; decide⟩

theorem pan_full_nine_digits_witness :
    card16.personal_account_number = some (("4503495455532271".toList.drop 6).take 9) ∧
      (("4503495455532271".toList.drop 6).take 9).length = 9 ∧
      personal_account_number_max_length <
        (("4503495455532271".toList.drop 6).take 9).length :=
  pan_full_nine_digits "4503495455532271".toList card16 (by decide) (by decide)

theorem generate_error_iff_witness :
    generate_from_iin [] (fun _ => 0) = .error .invalidIin :=
  (generate_error_iff [] (fun _ => 0)).2.1

theorem with_invalid_number_spec_witness :
    (with_invalid_number ['a']).is_valid = false :=
  (with_invalid_number_spec ['a']).2.1
